import Mathlib

/-!
Verification of the vscode-music platform-polling core
(src/linux/musicService.ts, src/windows/musicService.ts,
src/windows/utils/artworkUtil.ts).

JavaScript strings are modelled as Lean `String`; a JavaScript `NaN`
flowing out of `parseInt` arithmetic is modelled as `none` in
`Option Int`; absent (`undefined`) JSON fields are `none` in
`Option String`.  All definitions are executable.
-/

/-! ## JavaScript string primitives -/

/-- Whitespace recognised by the model of `String.prototype.trim`
and of `parseInt` leading-space skipping. -/
def isWhitespaceCh (c : Char) : Bool :=
  c = ' ' || c = '\t' || c = '\n' || c = '\r'

/-- Model of JavaScript `s.trim()`. -/
def jsTrim (s : String) : String :=
  String.mk (((s.data.dropWhile isWhitespaceCh).reverse.dropWhile isWhitespaceCh).reverse)

/-- Model of JavaScript `s.toLowerCase()` (ASCII range, which is all the
source ever feeds it). -/
def strToLower (s : String) : String :=
  String.mk (s.data.map Char.toLower)

/-- `matchesAt needle hay`: `needle` occurs at the head of `hay`. -/
def matchesAt : List Char → List Char → Bool
  | [], _ => true
  | _ :: _, [] => false
  | a :: as, b :: bs => a == b && matchesAt as bs

/-- `containsSub hay needle`: `needle` occurs somewhere in `hay`. -/
def containsSub (hay needle : List Char) : Bool :=
  match hay with
  | [] => needle.isEmpty
  | _ :: tl => matchesAt needle hay || containsSub tl needle

/-- Model of JavaScript `s.includes(sub)`. -/
def strIncludes (s sub : String) : Bool :=
  containsSub s.data sub.data

/-- Model of JavaScript `s.startsWith(p)`. -/
def strStarts (s p : String) : Bool :=
  matchesAt p.data s.data

/-- Fuel-driven splitter over character lists (fuel keeps the recursion
structural so the kernel can evaluate it). -/
def splitChAux : Nat → List Char → List Char → List Char → List (List Char)
  | 0, _, _, acc => [acc.reverse]
  | _ + 1, _, [], acc => [acc.reverse]
  | fuel + 1, sep, c :: rest, acc =>
    if matchesAt sep (c :: rest) then
      acc.reverse :: splitChAux fuel sep (List.drop sep.length (c :: rest)) []
    else
      splitChAux fuel sep rest (c :: acc)

/-- Model of JavaScript `s.split(sep)` for a non-empty separator (the
source only splits on `":"` and `"|||"`). -/
def jsSplit (s sep : String) : List String :=
  if sep.data.isEmpty then [s]
  else (splitChAux (s.data.length + 1) sep.data s.data []).map String.mk

/-- Accumulates the decimal value of a digit run. -/
def digitsValAux : List Char → Nat → Nat
  | [], acc => acc
  | c :: rest, acc => digitsValAux rest (acc * 10 + (c.toNat - 48))

/-- Model of JavaScript `parseInt(s, 10)`: skip leading whitespace, read an
optional sign and then a maximal run of decimal digits; `none` models the
`NaN` returned when no digit is found. -/
def jsParseInt (s : String) : Option Int :=
  let cs := s.data.dropWhile isWhitespaceCh
  match cs with
  | '-' :: body =>
    let ds := body.takeWhile Char.isDigit
    if ds.isEmpty then none else some (-(digitsValAux ds 0 : Int))
  | '+' :: body =>
    let ds := body.takeWhile Char.isDigit
    if ds.isEmpty then none else some (digitsValAux ds 0 : Int)
  | body =>
    let ds := body.takeWhile Char.isDigit
    if ds.isEmpty then none else some (digitsValAux ds 0 : Int)

/-- Model of the JavaScript string default idiom `s || d`
(the empty string is falsy). -/
def jsOrS (s d : String) : String :=
  if s = "" then d else s

/-- Same idiom when the left side may also be `undefined`
(an absent JSON field). -/
def jsOrOpt (v : Option String) (d : String) : String :=
  jsOrS (v.getD "") d

/-! ## Track records (common/interfaces/musicController.ts `TrackInfo`) -/

/-- Embedding of the `TrackInfo` interface.  `position`/`duration` are
`Option Int`: `none` models a JavaScript `NaN` produced by the Linux
duration parser.  `status` is a `String` because the Linux service casts an
arbitrary lowercased string into the field (`as any`). -/
structure TrackInfo where
  title : String
  artUrl : String
  artist : String
  album : String
  position : Option Int
  duration : Option Int
  status : String
  player : String
deriving DecidableEq, Repr

/-- JavaScript `(p || 0)` applied to a position: `NaN` (and an absent
value) collapse to `0`. -/
def posOr0 : Option Int → Int
  | none => 0
  | some p => p

/-- `hasTrackChanged` — identical in linux/musicService.ts lines 82-97 and
windows/musicService.ts lines 93-108.  `current` is the stored
`this.currentTrack`, `next` the freshly sampled track. -/
def hasTrackChanged (current next : Option TrackInfo) : Bool :=
  match current, next with
  | none, none => false
  | none, some _ => true
  | some _, none => true
  | some c, some n =>
    decide (c.title ≠ n.title) || decide (c.artist ≠ n.artist) ||
    decide (c.status ≠ n.status) ||
    decide (2 < (posOr0 c.position - posOr0 n.position).natAbs)

/-! ## Status and time normalisation -/

/-- windows/musicService.ts `mapPlaybackStatus` (lines 171-178). -/
def mapPlaybackStatus (status : String) : String :=
  if status = "" then "stopped"
  else
    let normalizedStatus := strToLower status
    if strIncludes normalizedStatus "play" then "playing"
    else if strIncludes normalizedStatus "pause" then "paused"
    else "stopped"

/-- Linux status field handling, linux/musicService.ts line 131:
`(parts[6]?.toLowerCase() as any) || 'stopped'`. -/
def linuxStatusNorm (s : String) : String :=
  if strToLower s = "" then "stopped" else strToLower s

/-- windows/musicService.ts `parseTimeToSeconds` (lines 157-169). -/
def parseTimeToSeconds (timeString : String) : Int :=
  if timeString = "" ∨ timeString = "00:00" then 0
  else
    match jsSplit timeString ":" with
    | [m, s] => (jsParseInt m).getD 0 * 60 + (jsParseInt s).getD 0
    | _ => 0

/-- linux/musicService.ts `parseDuration` (lines 156-165).  There is no
`|| 0` guard on the two `parseInt` calls, so a non-numeric segment makes
the whole sum `NaN`, modelled as `none`. -/
def parseDuration (duration : String) : Option Int :=
  if duration = "" then some 0
  else
    match jsSplit duration ":" with
    | [m, s] =>
      match jsParseInt m, jsParseInt s with
      | some mv, some sv => some (mv * 60 + sv)
      | _, _ => none
    | _ => some 0

/-! ## Sampling (getCurrentTrack) -/

/-- JSON object produced by `WinKlang.exe --json`; every field may be
absent (`undefined`). -/
structure WinData where
  title : Option String
  artworkUri : Option String
  artist : Option String
  album : Option String
  currentTime : Option String
  duration : Option String
  status : Option String
deriving DecidableEq, Repr

/-- Track built from a parsed WinKlang JSON object,
windows/musicService.ts lines 129-138. -/
def winTrackOf (data : WinData) : TrackInfo :=
  { title := jsOrOpt data.title "Unknown Title"
    artUrl := jsOrOpt data.artworkUri ""
    artist := jsOrOpt data.artist "Unknown Artist"
    album := jsOrOpt data.album "Unknown Album"
    position := some (parseTimeToSeconds (jsOrOpt data.currentTime "00:00"))
    duration := some (parseTimeToSeconds (jsOrOpt data.duration "00:00"))
    status := mapPlaybackStatus (data.status.getD "")
    player := "Windows Media Session" }

/-- Track built from the `|||`-delimited playerctl fields,
linux/musicService.ts lines 124-133 (used only when at least 8 fields are
present, so the `getD ""` defaults are never reached there). -/
def linuxTrackOf (parts : List String) : TrackInfo :=
  { title := jsOrS (parts.getD 0 "") "Unknown Title"
    artUrl := jsOrS (parts.getD 1 "") ""
    artist := jsOrS (parts.getD 2 "") "Unknown Artist"
    album := jsOrS (parts.getD 3 "") "Unknown Album"
    position := parseDuration (parts.getD 4 "")
    duration := parseDuration (parts.getD 5 "")
    status := linuxStatusNorm (parts.getD 6 "")
    player := jsOrS (parts.getD 7 "") "Unknown Player" }

/-- The `close` handler of the Linux `getCurrentTrack` spawn,
linux/musicService.ts lines 118-148: `code` is the exit code and `output`
the captured standard output. -/
def linuxParseOutput (code : Int) (output : String) : Option TrackInfo :=
  if code = 0 ∧ jsTrim output ≠ "" then
    if 8 ≤ (jsSplit (jsTrim output) "|||").length then
      some (linuxTrackOf (jsSplit (jsTrim output) "|||"))
    else none
  else none

/-- The `close` handler of the Windows `getCurrentTrack` spawn,
windows/musicService.ts lines 123-148.  `parsed` models `JSON.parse` of
the trimmed output; `none` is the thrown `SyntaxError`, which the `catch`
turns into `resolve(null)`. -/
def winParseOutput (code : Int) (output : String) (parsed : Option WinData) :
    Option TrackInfo :=
  if code = 0 ∧ jsTrim output ≠ "" then
    match parsed with
    | some data => some (winTrackOf data)
    | none => none
  else none

/-- linux/musicService.ts `getCurrentTrack` (lines 99-154) including the
availability guard; the second component records whether a child process
was spawned. -/
def linuxGetCurrentTrack (avail : Bool) (code : Int) (output : String) :
    Option TrackInfo × Bool :=
  if !avail then (none, false) else (linuxParseOutput code output, true)

/-- windows/musicService.ts `getCurrentTrack` (lines 110-155) including the
availability guard; the second component records whether a child process
was spawned. -/
def winGetCurrentTrack (avail : Bool) (code : Int) (output : String)
    (parsed : Option WinData) : Option TrackInfo × Bool :=
  if !avail then (none, false) else (winParseOutput code output parsed, true)

/-! ## Control dispatch -/

/-- How a control operation settles: resolution with no message, with a
user-facing warning, with an informational notice, or rejection with an
error message. -/
inductive CtrlOutcome where
  | resolvedOk : CtrlOutcome
  | resolvedWarn : String → CtrlOutcome
  | resolvedInfo : String → CtrlOutcome
  | rejected : String → CtrlOutcome
deriving DecidableEq, Repr

/-- A control operation succeeded (its promise resolved). -/
def CtrlOutcome.isSuccess : CtrlOutcome → Bool
  | rejected _ => false
  | _ => true

/-- Warning shown by every Linux control when playerctl is unavailable. -/
def playerctlWarn : String :=
  "playerctl is not available. Please install it to control music playback."

/-- Warning shown by every Windows control when WinKlang is unavailable. -/
def winKlangWarn : String :=
  "WinKlang is not available. Please ensure WinKlang.exe is present to control music playback."

/-- linux/musicService.ts `playPause` (lines 248-264).  The spawn's
standard error is not captured, hence the unused argument; the second
component records whether a process was spawned. -/
def linuxPlayPause (avail : Bool) (code : Int) (_stderrText : String) :
    CtrlOutcome × Bool :=
  if !avail then (.resolvedWarn playerctlWarn, false)
  else if code = 0 then (.resolvedOk, true)
  else (.rejected ("playerctl play-pause failed with code " ++ toString code), true)

/-- linux/musicService.ts `next` (lines 266-282). -/
def linuxNext (avail : Bool) (code : Int) (_stderrText : String) :
    CtrlOutcome × Bool :=
  if !avail then (.resolvedWarn playerctlWarn, false)
  else if code = 0 then (.resolvedOk, true)
  else (.rejected ("playerctl next failed with code " ++ toString code), true)

/-- linux/musicService.ts `previous` (lines 284-300). -/
def linuxPrevious (avail : Bool) (code : Int) (_stderrText : String) :
    CtrlOutcome × Bool :=
  if !avail then (.resolvedWarn playerctlWarn, false)
  else if code = 0 then (.resolvedOk, true)
  else (.rejected ("playerctl previous failed with code " ++ toString code), true)

/-- windows/musicService.ts `playPause` (lines 263-282): no standard-error
capture and no "not available" inspection. -/
def winPlayPause (avail : Bool) (code : Int) (_stderrText : String) :
    CtrlOutcome × Bool :=
  if !avail then (.resolvedWarn winKlangWarn, false)
  else if code = 0 then (.resolvedOk, true)
  else (.rejected ("WinKlang play-pause failed with code " ++ toString code), true)

/-- windows/musicService.ts `next` (lines 284-315): captures standard
error and treats a "not available" marker as informational. -/
def winNext (avail : Bool) (code : Int) (errorOutput : String) :
    CtrlOutcome × Bool :=
  if !avail then (.resolvedWarn winKlangWarn, false)
  else if code = 0 then (.resolvedOk, true)
  else if strIncludes errorOutput "not available" then
    (.resolvedInfo "Next track control is not available for the current media player.", true)
  else
    (.rejected ("WinKlang next failed with code " ++ toString code ++ ": " ++ errorOutput), true)

/-- windows/musicService.ts `previous` (lines 317-348). -/
def winPrevious (avail : Bool) (code : Int) (errorOutput : String) :
    CtrlOutcome × Bool :=
  if !avail then (.resolvedWarn winKlangWarn, false)
  else if code = 0 then (.resolvedOk, true)
  else if strIncludes errorOutput "not available" then
    (.resolvedInfo "Previous track control is not available for the current media player.", true)
  else
    (.rejected ("WinKlang previous failed with code " ++ toString code ++ ": " ++ errorOutput), true)

/-- windows/musicService.ts `getPosition` (lines 350-358):
`return track?.position || null`, so `undefined`, `NaN` and `0` all
collapse to `null`. -/
def winGetPosition (avail : Bool) (track : Option TrackInfo) : Option Int :=
  if !avail then none
  else
    match track with
    | none => none
    | some t =>
      match t.position with
      | none => none
      | some p => if p = 0 then none else some p

/-! ## Artwork resolution and caching -/

/-- Outcome of one HTTP download attempt, as seen by `downloadFile` /
`handleHttpUrl`. -/
inductive DlOutcome where
  /-- Status 200 and the body streamed to completion (`finish` fired). -/
  | ok : DlOutcome
  /-- Non-success status, or a request error raised before the write
  stream was created: no file appears on disk. -/
  | failNoFile : DlOutcome
  /-- Transport failure after the write stream was created: an incomplete
  file remains at the target path. -/
  | failMid : DlOutcome
deriving DecidableEq, Repr

/-- State owned by an artwork resolver: the in-memory cache
(locator ↦ resolved URI), the files on disk under the storage root
(path ↦ `true` when fully written, `false` when incomplete), and a counter
of transfers (HTTP requests issued plus file copies) used to state the
at-most-once properties. -/
structure ArtSt where
  cache : List (String × String)
  disk : List (String × Bool)
  transfers : Nat
deriving DecidableEq, Repr

/-- The fresh state a controller starts from. -/
def ArtSt.empty : ArtSt := ⟨[], [], 0⟩

/-- `fs.existsSync` on the storage area (an incomplete file still
exists). -/
def diskHas (st : ArtSt) (p : String) : Bool :=
  (st.disk.lookup p).isSome

/-- Standard base64 alphabet. -/
def b64Table : List Char :=
  "ABCDEFGHIJKLMNOPQRSTUVWXYZabcdefghijklmnopqrstuvwxyz0123456789+/".data

/-- Character at an index of the base64 alphabet. -/
def b64Char (n : Nat) : Char := b64Table.getD n 'A'

/-- Base64 of a byte list. -/
def b64Encode : List Nat → List Char
  | [] => []
  | [a] => [b64Char (a / 4), b64Char (a % 4 * 16), '=', '=']
  | [a, b] => [b64Char (a / 4), b64Char (a % 4 * 16 + b / 16), b64Char (b % 16 * 4), '=']
  | a :: b :: c :: rest =>
    b64Char (a / 4) :: b64Char (a % 4 * 16 + b / 16) ::
    b64Char (b % 16 * 4 + c / 64) :: b64Char (c % 64) :: b64Encode rest

/-- `Buffer.from(s).toString('base64').replace(/[/+=]/g, '_')`
(artworkUtil.ts lines 67 and 91); codepoints coincide with bytes for the
ASCII locators the probe produces. -/
def urlHash (s : String) : String :=
  String.mk ((b64Encode (s.data.map Char.toNat)).map
    (fun c => if c = '/' ∨ c = '+' ∨ c = '=' then '_' else c))

/-- `path.join`. -/
def pathJoin (a b : String) : String := a ++ "/" ++ b

/-- The artwork directory of ArtworkUtil under the global storage root. -/
def artworkDir : String := "globalStorage/artwork"

/-- `vscode.Uri.file(p).toString()`. -/
def fileUri (p : String) : String := "file://" ++ p

/-- `vscode.Uri.file(p).with(scheme vscode-resource).toString()` as used
by the Linux service. -/
def vsResourceUri (p : String) : String := "vscode-resource://" ++ p

/-- `s.replace('file://', '')` under the `startsWith('file://')` guard:
the first (leading) occurrence is removed. -/
def stripFileScheme (s : String) : String := String.mk (s.data.drop 7)

/-- `path.basename`. -/
def baseNameOf (p : String) : String :=
  String.mk ((p.data.reverse.takeWhile (fun c => c ≠ '/')).reverse)

/-- `path.extname` restricted to the basename: empty when the basename has
no dot or only a leading dot, otherwise from the last dot to the end. -/
def extnameOf (p : String) : String :=
  let base := (baseNameOf p).data
  let revAfter := base.reverse.takeWhile (fun c => c ≠ '.')
  if revAfter.length = base.length then ""
  else if revAfter.length + 1 = base.length then ""
  else String.mk ('.' :: revAfter.reverse)

/-- Deterministic local path ArtworkUtil uses for an HTTP(S) locator
(artworkUtil.ts lines 91-93). -/
def winLocalPathHttp (artUrl : String) : String :=
  pathJoin artworkDir ("artwork_" ++ urlHash artUrl ++ ".jpg")

/-- Deterministic local path ArtworkUtil uses for a `file://` source
(artworkUtil.ts lines 67-70): hash of the source path plus its original
extension or `.jpg`. -/
def winLocalPathFile (sourcePath : String) : String :=
  pathJoin artworkDir ("artwork_" ++ urlHash sourcePath ++ jsOrS (extnameOf sourcePath) ".jpg")

/-- ArtworkUtil.handleHttpUrl (artworkUtil.ts lines 86-124).  The write
stream is opened directly at the final path, so a mid-transfer failure
leaves an incomplete file there, and the `fs.existsSync` check of a later
call accepts it. -/
def handleHttpUrl (st : ArtSt) (artUrl : String) (outcome : DlOutcome) :
    Option String × ArtSt :=
  if diskHas st (winLocalPathHttp artUrl) then
    (some (fileUri (winLocalPathHttp artUrl)),
     { st with cache := (artUrl, fileUri (winLocalPathHttp artUrl)) :: st.cache })
  else
    match outcome with
    | .ok =>
      (some (fileUri (winLocalPathHttp artUrl)),
       { st with cache := (artUrl, fileUri (winLocalPathHttp artUrl)) :: st.cache,
                 disk := (winLocalPathHttp artUrl, true) :: st.disk,
                 transfers := st.transfers + 1 })
    | .failNoFile => (none, { st with transfers := st.transfers + 1 })
    | .failMid =>
      (none, { st with disk := (winLocalPathHttp artUrl, false) :: st.disk,
                       transfers := st.transfers + 1 })

/-- ArtworkUtil.handleFileUrl (artworkUtil.ts lines 55-84).  `srcFs` is
the external filesystem (`fs.existsSync` on arbitrary paths); the copy
runs only when nothing is at the computed path yet, and both branches
cache and return the computed URI. -/
def handleFileUrl (st : ArtSt) (srcFs : String → Bool) (artUrl : String) :
    Option String × ArtSt :=
  if !srcFs (stripFileScheme artUrl) then (none, st)
  else if diskHas st (winLocalPathFile (stripFileScheme artUrl)) then
    (some (fileUri (winLocalPathFile (stripFileScheme artUrl))),
     { st with cache :=
        (artUrl, fileUri (winLocalPathFile (stripFileScheme artUrl))) :: st.cache })
  else
    (some (fileUri (winLocalPathFile (stripFileScheme artUrl))),
     { st with cache :=
        (artUrl, fileUri (winLocalPathFile (stripFileScheme artUrl))) :: st.cache,
               disk := (winLocalPathFile (stripFileScheme artUrl), true) :: st.disk,
               transfers := st.transfers + 1 })

/-- ArtworkUtil.downloadArtwork (artworkUtil.ts lines 23-53), assuming the
utility was initialised with an extension context (`cache.has` followed by
`cache.get` becomes one lookup). -/
def winDownloadArtwork (st : ArtSt) (srcFs : String → Bool) (artUrl : String)
    (outcome : DlOutcome) : Option String × ArtSt :=
  if artUrl = "" then (none, st)
  else if (st.cache.lookup artUrl).isSome then (st.cache.lookup artUrl, st)
  else if strStarts artUrl "file://" then handleFileUrl st srcFs artUrl
  else if strStarts artUrl "http://" || strStarts artUrl "https://" then
    handleHttpUrl st artUrl outcome
  else (none, st)

/-- Local path the Linux service downloads HTTP artwork to
(linux/musicService.ts line 208): a fresh `Date.now()`-stamped name, no
on-disk reuse. -/
def linuxLocalPathHttp (now : Nat) : String :=
  pathJoin "globalStorage/uploads" ("artwork_" ++ toString now ++ ".jpg")

/-- Local path the Linux service copies `file://` artwork to
(linux/musicService.ts lines 187-188). -/
def linuxLocalPathFile (sourcePath : String) : String :=
  pathJoin "globalStorage/uploads" (baseNameOf sourcePath)

/-- LinuxMusicService.downloadArtwork (linux/musicService.ts lines
167-223) together with its `downloadFile` helper (lines 225-245): `now` is
`Date.now()` at this call, `srcFs` the external filesystem, `outcome` the
download outcome.  A rejected download is caught and returns null; the
copy on the `file://` path runs unconditionally. -/
def linuxDownloadArtwork (st : ArtSt) (srcFs : String → Bool) (now : Nat)
    (artworkUrl : String) (outcome : DlOutcome) : Option String × ArtSt :=
  if artworkUrl = "" then (none, st)
  else if (st.cache.lookup artworkUrl).isSome then (st.cache.lookup artworkUrl, st)
  else if strStarts artworkUrl "file://" then
    if srcFs (stripFileScheme artworkUrl) then
      (some (vsResourceUri (linuxLocalPathFile (stripFileScheme artworkUrl))),
       { st with cache :=
          (artworkUrl, vsResourceUri (linuxLocalPathFile (stripFileScheme artworkUrl)))
            :: st.cache,
                 disk := (linuxLocalPathFile (stripFileScheme artworkUrl), true) :: st.disk,
                 transfers := st.transfers + 1 })
    else (none, st)
  else if strStarts artworkUrl "http" then
    match outcome with
    | .ok =>
      (some (vsResourceUri (linuxLocalPathHttp now)),
       { st with cache := (artworkUrl, vsResourceUri (linuxLocalPathHttp now)) :: st.cache,
                 disk := (linuxLocalPathHttp now, true) :: st.disk,
                 transfers := st.transfers + 1 })
    | .failNoFile => (none, { st with transfers := st.transfers + 1 })
    | .failMid =>
      (none, { st with disk := (linuxLocalPathHttp now, false) :: st.disk,
                       transfers := st.transfers + 1 })
  else (none, st)

/-! ## Helper lemmas -/

/-- Lowercasing never turns a non-empty string empty. -/
theorem strToLower_ne_empty {s : String} (h : s ≠ "") : strToLower s ≠ "" := by
  intro hc
  apply h
  have hmap : s.data.map Char.toLower = [] := congrArg String.data hc
  have hnil : s.data = [] := List.map_eq_nil_iff.mp hmap
  have hs : s = String.mk s.data := rfl
  rw [hs, hnil]

/-- The string default idiom yields a non-empty string when the default is
non-empty. -/
theorem jsOrS_ne_empty (s : String) {d : String} (hd : d ≠ "") : jsOrS s d ≠ "" := by
  unfold jsOrS
  by_cases hs : s = "" <;> simp [hs, hd]

/-- `mapPlaybackStatus` only returns one of the three non-empty statuses. -/
theorem mapPlaybackStatus_ne_empty (s : String) : mapPlaybackStatus s ≠ "" := by
  unfold mapPlaybackStatus
  by_cases h0 : s = ""
  · rw [if_pos h0]; decide
  · rw [if_neg h0]
    show (if strIncludes (strToLower s) "play" = true then "playing"
      else if strIncludes (strToLower s) "pause" = true then "paused" else "stopped") ≠ ""
    by_cases h1 : strIncludes (strToLower s) "play" = true
    · rw [if_pos h1]; decide
    · rw [if_neg h1]
      by_cases h2 : strIncludes (strToLower s) "pause" = true
      · rw [if_pos h2]; decide
      · rw [if_neg h2]; decide

/-- The Linux status field is never empty. -/
theorem linuxStatusNorm_ne_empty (s : String) : linuxStatusNorm s ≠ "" := by
  unfold linuxStatusNorm
  by_cases h : strToLower s = "" <;> simp [h]

/-! ## Claim theorems -/

/-- C1: the change predicate returns false when both records are absent,
true when exactly one is absent, and for two present records it returns
true exactly when the title, artist or status differ or the positions are
more than 2 seconds apart; records agreeing on title, artist and status
whose positions differ by at most 2 are reported unchanged even when album
or artwork locator differ. -/
theorem hasTrackChanged_spec :
    hasTrackChanged none none = false ∧
    (∀ t : TrackInfo, hasTrackChanged none (some t) = true ∧
      hasTrackChanged (some t) none = true) ∧
    (∀ (c n : TrackInfo) (p q : Int), c.position = some p → n.position = some q →
      (hasTrackChanged (some c) (some n) = true ↔
        (c.title ≠ n.title ∨ c.artist ≠ n.artist ∨ c.status ≠ n.status ∨
          2 < (p - q).natAbs))) ∧
    (∀ (c n : TrackInfo) (p q : Int), c.position = some p → n.position = some q →
      c.title = n.title → c.artist = n.artist → c.status = n.status →
      (p - q).natAbs ≤ 2 → hasTrackChanged (some c) (some n) = false) := by
  refine ⟨rfl, fun t => ⟨rfl, rfl⟩, ?_, ?_⟩
  · intro c n p q hp hq
    simp [hasTrackChanged, posOr0, hp, hq]
    tauto
  · intro c n p q hp hq h1 h2 h3 h4
    simp [hasTrackChanged, posOr0, hp, hq, h1, h2, h3]
    omega

/-- C1 witness: two present records sharing title, artist and status, with
positions 10 and 12 and differing album and artwork, are unchanged. -/
theorem hasTrackChanged_spec_witness :
    hasTrackChanged
      (some { title := "Song", artUrl := "http://a/1.jpg", artist := "Band",
              album := "Old", position := some 10, duration := some 100,
              status := "playing", player := "mpv" })
      (some { title := "Song", artUrl := "http://a/2.jpg", artist := "Band",
              album := "New", position := some 12, duration := some 100,
              status := "playing", player := "mpv" }) = false :=
  hasTrackChanged_spec.2.2.2 _ _ 10 12 rfl rfl rfl rfl rfl (by decide)

/-- C2 counterexample: the claim requires every raw status containing
"pause" (ignoring case) to map to Paused on the Linux delimited path as
well, but the Linux path performs no substring matching: "Paused (x)" is
merely lowercased to "paused (x)", not mapped to "paused". -/
theorem status_claim_counterexample :
    strIncludes (strToLower "Paused (x)") "pause" = true ∧
    linuxStatusNorm "Paused (x)" ≠ "paused" ∧
    linuxStatusNorm "Paused (x)" = "paused (x)" ∧
    strIncludes (strToLower "play pause") "pause" = true ∧
    mapPlaybackStatus "play pause" ≠ "paused" ∧
    mapPlaybackStatus "play pause" = "playing" := by decide

/-- C2 (amended): on the Windows JSON path, normalization is
case-insensitive substring matching with "play" checked before "pause" —
strings containing "play" map to Playing, strings containing "pause" but
not "play" map to Paused, and every other string (including the empty one)
maps to Stopped.  On the Linux delimited path no substring matching
occurs: the raw status field is lowercased verbatim, with the empty string
replaced by "stopped". -/
theorem status_normalization_amended :
    (∀ s : String, strIncludes (strToLower s) "play" = true →
      mapPlaybackStatus s = "playing") ∧
    (∀ s : String, strIncludes (strToLower s) "pause" = true →
      strIncludes (strToLower s) "play" = false → mapPlaybackStatus s = "paused") ∧
    (∀ s : String, strIncludes (strToLower s) "play" = false →
      strIncludes (strToLower s) "pause" = false → mapPlaybackStatus s = "stopped") ∧
    (∀ s : String, s ≠ "" → linuxStatusNorm s = strToLower s) ∧
    linuxStatusNorm "" = "stopped" := by
  refine ⟨?_, ?_, ?_, ?_, by decide⟩
  · intro s h
    by_cases h0 : s = ""
    · rw [h0] at h; exact absurd h (by decide)
    · unfold mapPlaybackStatus
      rw [if_neg h0]
      show (if strIncludes (strToLower s) "play" = true then "playing"
        else if strIncludes (strToLower s) "pause" = true then "paused" else "stopped") = "playing"
      rw [if_pos h]
  · intro s h1 h2
    by_cases h0 : s = ""
    · rw [h0] at h1; exact absurd h1 (by decide)
    · unfold mapPlaybackStatus
      rw [if_neg h0]
      show (if strIncludes (strToLower s) "play" = true then "playing"
        else if strIncludes (strToLower s) "pause" = true then "paused" else "stopped") = "paused"
      rw [if_neg (by simp [h2]), if_pos h1]
  · intro s h1 h2
    by_cases h0 : s = ""
    · unfold mapPlaybackStatus; rw [if_pos h0]
    · unfold mapPlaybackStatus
      rw [if_neg h0]
      show (if strIncludes (strToLower s) "play" = true then "playing"
        else if strIncludes (strToLower s) "pause" = true then "paused" else "stopped") = "stopped"
      rw [if_neg (by simp [h1]), if_neg (by simp [h2])]
  · intro s hs
    unfold linuxStatusNorm
    rw [if_neg (by simp [strToLower_ne_empty hs])]

/-- C2 witness: the amended normalization evaluated on concrete statuses. -/
theorem status_normalization_amended_witness :
    mapPlaybackStatus "Now Playing" = "playing" ∧
    mapPlaybackStatus "paused (x)" = "paused" ∧
    mapPlaybackStatus "weird" = "stopped" ∧
    linuxStatusNorm "Stopped" = strToLower "Stopped" :=
  ⟨status_normalization_amended.1 "Now Playing" (by decide),
   status_normalization_amended.2.1 "paused (x)" (by decide) (by decide),
   status_normalization_amended.2.2.1 "weird" (by decide) (by decide),
   status_normalization_amended.2.2.2.1 "Stopped" (by decide)⟩

/-- C3 counterexample: the claim requires every malformed time string to
parse to 0 on both platforms; the Linux parser applies no guard to
`parseInt`, so "aa:bb" parses to NaN (`none`), and the Windows parser
defaults each segment separately, so "5:xx" parses to 300, not 0. -/
theorem time_parsing_counterexample :
    parseDuration "aa:bb" = none ∧ parseDuration "aa:bb" ≠ some 0 ∧
    parseTimeToSeconds "5:xx" = 300 ∧ parseTimeToSeconds "5:xx" ≠ 0 := by decide

/-- C3 (amended): "00:00" and the empty string parse to exactly 0 and
"02:30" parses to 150 on both normalizers, and a string that does not
split on ":" into exactly two segments parses to 0 on both.  With exactly
two segments they differ: the Windows normalizer defaults each non-numeric
segment to 0 individually (a fully non-numeric string still parses to 0),
while the Linux normalizer yields NaN (modelled `none`) as soon as either
segment is non-numeric. -/
theorem time_parsing_amended :
    parseTimeToSeconds "00:00" = 0 ∧ parseTimeToSeconds "" = 0 ∧
    parseTimeToSeconds "02:30" = 150 ∧
    (∀ s : String, (jsSplit s ":").length ≠ 2 → parseTimeToSeconds s = 0) ∧
    (∀ s m sec : String, jsSplit s ":" = [m, sec] → jsParseInt m = none →
      jsParseInt sec = none → parseTimeToSeconds s = 0) ∧
    (∀ s m sec : String, jsSplit s ":" = [m, sec] → s ≠ "" → s ≠ "00:00" →
      parseTimeToSeconds s = (jsParseInt m).getD 0 * 60 + (jsParseInt sec).getD 0) ∧
    parseDuration "00:00" = some 0 ∧ parseDuration "" = some 0 ∧
    parseDuration "02:30" = some 150 ∧
    (∀ s : String, (jsSplit s ":").length ≠ 2 → parseDuration s = some 0) ∧
    (∀ s m sec : String, jsSplit s ":" = [m, sec] →
      (jsParseInt m = none ∨ jsParseInt sec = none) → parseDuration s = none) ∧
    (∀ (s m sec : String) (mv sv : Int), jsSplit s ":" = [m, sec] →
      jsParseInt m = some mv → jsParseInt sec = some sv →
      parseDuration s = some (mv * 60 + sv)) := by
  refine ⟨by decide, by decide, by decide, ?_, ?_, ?_, by decide, by decide, by decide, ?_, ?_, ?_⟩
  · intro s hlen
    unfold parseTimeToSeconds
    split
    · rfl
    · rcases hsp : jsSplit s ":" with _ | ⟨m, _ | ⟨sec, _ | ⟨x, xs⟩⟩⟩
      · rfl
      · rfl
      · exact absurd (by rw [hsp]; rfl : (jsSplit s ":").length = 2) hlen
      · rfl
  · intro s m sec hsp hm hsec
    unfold parseTimeToSeconds
    split
    · rfl
    · rw [hsp]
      show (jsParseInt m).getD 0 * 60 + (jsParseInt sec).getD 0 = 0
      rw [hm, hsec]
      rfl
  · intro s m sec hsp hs1 hs2
    unfold parseTimeToSeconds
    rw [if_neg (not_or.mpr ⟨hs1, hs2⟩), hsp]
  · intro s hlen
    unfold parseDuration
    by_cases h0 : s = ""
    · rw [if_pos h0]
    · rw [if_neg h0]
      rcases hsp : jsSplit s ":" with _ | ⟨m, _ | ⟨sec, _ | ⟨x, xs⟩⟩⟩
      · rfl
      · rfl
      · exact absurd (by rw [hsp]; rfl : (jsSplit s ":").length = 2) hlen
      · rfl
  · intro s m sec hsp hnone
    unfold parseDuration
    by_cases h0 : s = ""
    · exfalso
      rw [h0] at hsp
      exact absurd (by rw [hsp]; rfl : (jsSplit "" ":").length = 2) (by decide)
    · rw [if_neg h0, hsp]
      show (match jsParseInt m, jsParseInt sec with
        | some mv, some sv => some (mv * 60 + sv)
        | _, _ => none) = none
      rcases hnone with h | h
      · rcases hs2 : jsParseInt sec with _ | v <;> rw [h]
      · rcases hm2 : jsParseInt m with _ | v <;> rw [h]
  · intro s m sec mv sv hsp hm hsec
    unfold parseDuration
    by_cases h0 : s = ""
    · exfalso
      rw [h0] at hsp
      exact absurd (by rw [hsp]; rfl : (jsSplit "" ":").length = 2) (by decide)
    · rw [if_neg h0, hsp]
      show (match jsParseInt m, jsParseInt sec with
        | some mv, some sv => some (mv * 60 + sv)
        | _, _ => none) = some (mv * 60 + sv)
      rw [hm, hsec]

/-- C3 witness: the amended parsing clauses evaluated on concrete
strings. -/
theorem time_parsing_amended_witness :
    parseTimeToSeconds "1:2:3" = 0 ∧ parseDuration "xx:7" = none ∧
    parseDuration "01:05" = some 65 :=
  ⟨time_parsing_amended.2.2.2.1 "1:2:3" (by decide),
   time_parsing_amended.2.2.2.2.2.2.2.2.2.2.1 "xx:7" "xx" "7" (by decide)
     (Or.inl (by decide)),
   time_parsing_amended.2.2.2.2.2.2.2.2.2.2.2 "01:05" "01" "05" 1 5 (by decide)
     (by decide) (by decide)⟩

/-- Looking up the key just inserted at the head of an association list. -/
theorem lookup_cons_self (k v : String) (tl : List (String × String)) :
    List.lookup k ((k, v) :: tl) = some v := by
  simp [List.lookup]

/-- A cached locator is answered from the Windows artwork cache with no
state change. -/
theorem winDownloadArtwork_cache_hit (st : ArtSt) (srcFs : String → Bool)
    (artUrl v : String) (outcome : DlOutcome) (hne : artUrl ≠ "")
    (hc : st.cache.lookup artUrl = some v) :
    winDownloadArtwork st srcFs artUrl outcome = (some v, st) := by
  unfold winDownloadArtwork
  rw [if_neg hne, hc]
  rfl

/-- A cached locator is answered from the Linux artwork cache with no
state change. -/
theorem linuxDownloadArtwork_cache_hit (st : ArtSt) (srcFs : String → Bool)
    (now : Nat) (artworkUrl v : String) (outcome : DlOutcome)
    (hne : artworkUrl ≠ "") (hc : st.cache.lookup artworkUrl = some v) :
    linuxDownloadArtwork st srcFs now artworkUrl outcome = (some v, st) := by
  unfold linuxDownloadArtwork
  rw [if_neg hne, hc]
  rfl

/-- With a succeeding transport, one Windows resolve either returns `none`
with the state unchanged, or returns a URI that it also records in the
cache, at the cost of at most one transfer. -/
theorem winDownloadArtwork_ok_cases (st : ArtSt) (srcFs : String → Bool)
    (artUrl : String) :
    winDownloadArtwork st srcFs artUrl .ok = (none, st) ∨
    (∃ v st2, winDownloadArtwork st srcFs artUrl .ok = (some v, st2) ∧
      st2.cache.lookup artUrl = some v ∧ st2.transfers ≤ st.transfers + 1 ∧
      artUrl ≠ "") := by
  by_cases h0 : artUrl = ""
  · left
    unfold winDownloadArtwork
    rw [if_pos h0]
  · by_cases hc : (st.cache.lookup artUrl).isSome = true
    · rcases Option.isSome_iff_exists.mp hc with ⟨v, hv⟩
      exact Or.inr ⟨v, st, winDownloadArtwork_cache_hit st srcFs artUrl v .ok h0 hv,
        hv, Nat.le_succ _, h0⟩
    · unfold winDownloadArtwork handleFileUrl handleHttpUrl
      rw [if_neg h0, if_neg hc]
      by_cases hf : strStarts artUrl "file://" = true
      · rw [if_pos hf]
        by_cases hs : srcFs (stripFileScheme artUrl) = true
        · rw [if_neg (by simp [hs] : ¬((!srcFs (stripFileScheme artUrl)) = true))]
          by_cases hd : diskHas st (winLocalPathFile (stripFileScheme artUrl)) = true
          · rw [if_pos hd]
            exact Or.inr ⟨_, _, rfl, lookup_cons_self _ _ _, Nat.le_succ _, h0⟩
          · rw [if_neg hd]
            exact Or.inr ⟨_, _, rfl, lookup_cons_self _ _ _, Nat.le_refl _, h0⟩
        · rw [if_pos (by simp [hs] : (!srcFs (stripFileScheme artUrl)) = true)]
          exact Or.inl rfl
      · rw [if_neg hf]
        by_cases hh : (strStarts artUrl "http://" || strStarts artUrl "https://") = true
        · rw [if_pos hh]
          by_cases hd : diskHas st (winLocalPathHttp artUrl) = true
          · rw [if_pos hd]
            exact Or.inr ⟨_, _, rfl, lookup_cons_self _ _ _, Nat.le_succ _, h0⟩
          · rw [if_neg hd]
            exact Or.inr ⟨_, _, rfl, lookup_cons_self _ _ _, Nat.le_refl _, h0⟩
        · rw [if_neg hh]
          exact Or.inl rfl

/-- With a succeeding transport, one Linux resolve either returns `none`
with the state unchanged (for every timestamp), or returns a URI that it
also records in the cache, at the cost of at most one transfer. -/
theorem linuxDownloadArtwork_ok_cases (st : ArtSt) (srcFs : String → Bool)
    (now : Nat) (artworkUrl : String) :
    (∀ n : Nat, linuxDownloadArtwork st srcFs n artworkUrl .ok = (none, st)) ∨
    (∃ v st2, linuxDownloadArtwork st srcFs now artworkUrl .ok = (some v, st2) ∧
      st2.cache.lookup artworkUrl = some v ∧ st2.transfers ≤ st.transfers + 1 ∧
      artworkUrl ≠ "") := by
  by_cases h0 : artworkUrl = ""
  · left
    intro n
    unfold linuxDownloadArtwork
    rw [if_pos h0]
  · by_cases hc : (st.cache.lookup artworkUrl).isSome = true
    · rcases Option.isSome_iff_exists.mp hc with ⟨v, hv⟩
      exact Or.inr ⟨v, st, linuxDownloadArtwork_cache_hit st srcFs now artworkUrl v .ok h0 hv,
        hv, Nat.le_succ _, h0⟩
    · by_cases hf : strStarts artworkUrl "file://" = true
      · by_cases hs : srcFs (stripFileScheme artworkUrl) = true
        · right
          unfold linuxDownloadArtwork
          rw [if_neg h0, if_neg hc, if_pos hf, if_pos hs]
          exact ⟨_, _, rfl, lookup_cons_self _ _ _, Nat.le_refl _, h0⟩
        · left
          intro n
          unfold linuxDownloadArtwork
          rw [if_neg h0, if_neg hc, if_pos hf, if_neg hs]
      · by_cases hh : strStarts artworkUrl "http" = true
        · right
          unfold linuxDownloadArtwork
          rw [if_neg h0, if_neg hc, if_neg hf, if_pos hh]
          exact ⟨_, _, rfl, lookup_cons_self _ _ _, Nat.le_refl _, h0⟩
        · left
          intro n
          unfold linuxDownloadArtwork
          rw [if_neg h0, if_neg hc, if_neg hf, if_neg hh]

/-- C5: artwork resolution is idempotent per distinct locator string.
With a transport that succeeds, resolving a locator twice on the same
controller yields the same result, and the two calls together perform at
most one transfer: the second call is answered from the exact-string-match
cache (on the Windows utility alternatively from the on-disk presence
check at the deterministic hash-derived path), with no second download or
copy — on the Linux service even though its HTTP filenames are
timestamp-fresh. -/
theorem artwork_idempotent :
    (∀ (st : ArtSt) (srcFs : String → Bool) (artUrl : String),
      (winDownloadArtwork st srcFs artUrl .ok).1 =
        (winDownloadArtwork (winDownloadArtwork st srcFs artUrl .ok).2
          srcFs artUrl .ok).1 ∧
      (winDownloadArtwork (winDownloadArtwork st srcFs artUrl .ok).2
        srcFs artUrl .ok).2.transfers ≤ st.transfers + 1) ∧
    (∀ (st : ArtSt) (srcFs : String → Bool) (now1 now2 : Nat) (artworkUrl : String),
      (linuxDownloadArtwork st srcFs now1 artworkUrl .ok).1 =
        (linuxDownloadArtwork (linuxDownloadArtwork st srcFs now1 artworkUrl .ok).2
          srcFs now2 artworkUrl .ok).1 ∧
      (linuxDownloadArtwork (linuxDownloadArtwork st srcFs now1 artworkUrl .ok).2
        srcFs now2 artworkUrl .ok).2.transfers ≤ st.transfers + 1) := by
  constructor
  · intro st srcFs artUrl
    rcases winDownloadArtwork_ok_cases st srcFs artUrl with h | ⟨v, st2, h, hl, ht, hne⟩
    · have h2 : (winDownloadArtwork st srcFs artUrl .ok).2 = st := by rw [h]
      constructor
      · rw [h2]
      · rw [h2, h2]
        exact Nat.le_succ _
    · have h2 : (winDownloadArtwork st srcFs artUrl .ok).2 = st2 := by rw [h]
      have hhit := winDownloadArtwork_cache_hit st2 srcFs artUrl v .ok hne hl
      constructor
      · rw [h2, hhit, h]
      · rw [h2, hhit]
        exact ht
  · intro st srcFs now1 now2 artworkUrl
    rcases linuxDownloadArtwork_ok_cases st srcFs now1 artworkUrl with h | ⟨v, st2, h, hl, ht, hne⟩
    · have h2 : (linuxDownloadArtwork st srcFs now1 artworkUrl .ok).2 = st := by
        rw [h now1]
      constructor
      · rw [h2, h now1, h now2]
      · rw [h2, h now2]
        exact Nat.le_succ _
    · have h2 : (linuxDownloadArtwork st srcFs now1 artworkUrl .ok).2 = st2 := by rw [h]
      have hhit := linuxDownloadArtwork_cache_hit st2 srcFs now2 artworkUrl v .ok hne hl
      constructor
      · rw [h2, hhit, h]
      · rw [h2, hhit]
        exact ht

/-- Every field of a Linux-built track that has a placeholder default is
non-empty. -/
theorem linuxTrackOf_filled (parts : List String) :
    (linuxTrackOf parts).title ≠ "" ∧ (linuxTrackOf parts).artist ≠ "" ∧
    (linuxTrackOf parts).album ≠ "" ∧ (linuxTrackOf parts).status ≠ "" ∧
    (linuxTrackOf parts).player ≠ "" :=
  ⟨jsOrS_ne_empty _ (by decide), jsOrS_ne_empty _ (by decide),
   jsOrS_ne_empty _ (by decide), linuxStatusNorm_ne_empty _,
   jsOrS_ne_empty _ (by decide)⟩

/-- Every field of a Windows-built track that has a placeholder default is
non-empty. -/
theorem winTrackOf_filled (data : WinData) :
    (winTrackOf data).title ≠ "" ∧ (winTrackOf data).artist ≠ "" ∧
    (winTrackOf data).album ≠ "" ∧ (winTrackOf data).status ≠ "" ∧
    (winTrackOf data).player ≠ "" :=
  ⟨jsOrS_ne_empty _ (by decide), jsOrS_ne_empty _ (by decide),
   jsOrS_ne_empty _ (by decide), mapPlaybackStatus_ne_empty _,
   show ("Windows Media Session" : String) ≠ "" by decide⟩

/-- C8: getCurrentTrack never yields a half-filled record.  Both parsers
return `none` on a non-zero exit code, on empty (after trim) output, on an
unparsable JSON payload, and — for the delimited shape — on fewer than 8
fields; any record they do return has every placeholder-bearing field
(title, artist, album, status, player) filled in non-empty. -/
theorem sample_all_or_none :
    (∀ (code : Int) (out : String), code ≠ 0 → linuxParseOutput code out = none) ∧
    (∀ (code : Int) (out : String), jsTrim out = "" → linuxParseOutput code out = none) ∧
    (∀ (code : Int) (out : String), (jsSplit (jsTrim out) "|||").length < 8 →
      linuxParseOutput code out = none) ∧
    (∀ (code : Int) (out : String) (t : TrackInfo), linuxParseOutput code out = some t →
      t.title ≠ "" ∧ t.artist ≠ "" ∧ t.album ≠ "" ∧ t.status ≠ "" ∧ t.player ≠ "") ∧
    (∀ (code : Int) (out : String) (parsed : Option WinData),
      code ≠ 0 ∨ jsTrim out = "" ∨ parsed = none → winParseOutput code out parsed = none) ∧
    (∀ (code : Int) (out : String) (parsed : Option WinData) (t : TrackInfo),
      winParseOutput code out parsed = some t →
      t.title ≠ "" ∧ t.artist ≠ "" ∧ t.album ≠ "" ∧ t.status ≠ "" ∧ t.player ≠ "") := by
  refine ⟨?_, ?_, ?_, ?_, ?_, ?_⟩
  · intro code out hcode
    unfold linuxParseOutput
    rw [if_neg (fun hg => hcode hg.1)]
  · intro code out htrim
    unfold linuxParseOutput
    rw [if_neg (fun hg => hg.2 htrim)]
  · intro code out hlen
    unfold linuxParseOutput
    by_cases hg : code = 0 ∧ jsTrim out ≠ ""
    · rw [if_pos hg, if_neg (by omega : ¬(8 ≤ (jsSplit (jsTrim out) "|||").length))]
    · rw [if_neg hg]
  · intro code out t h
    unfold linuxParseOutput at h
    by_cases hg : code = 0 ∧ jsTrim out ≠ ""
    · rw [if_pos hg] at h
      by_cases hlen : 8 ≤ (jsSplit (jsTrim out) "|||").length
      · rw [if_pos hlen] at h
        injection h with h2
        rw [← h2]
        exact linuxTrackOf_filled _
      · rw [if_neg hlen] at h
        exact absurd h (by simp)
    · rw [if_neg hg] at h
      exact absurd h (by simp)
  · intro code out parsed h
    unfold winParseOutput
    rcases h with h | h | h
    · rw [if_neg (fun hg => h hg.1)]
    · rw [if_neg (fun hg => hg.2 h)]
    · by_cases hg : code = 0 ∧ jsTrim out ≠ ""
      · rw [if_pos hg, h]
      · rw [if_neg hg]
  · intro code out parsed t h
    unfold winParseOutput at h
    by_cases hg : code = 0 ∧ jsTrim out ≠ ""
    · rw [if_pos hg] at h
      rcases parsed with _ | d
      · exact absurd h (by simp)
      · have h2 : some (winTrackOf d) = some t := h
        injection h2 with h3
        rw [← h3]
        exact winTrackOf_filled d
    · rw [if_neg hg] at h
      exact absurd h (by simp)

/-- C8 witness: the parsers evaluated at a failing exit code, an
unparsable payload and a short delimited line. -/
theorem sample_all_or_none_witness :
    linuxParseOutput 1 "x" = none ∧ winParseOutput 0 "out" none = none ∧
    linuxParseOutput 0 "a|||b" = none :=
  ⟨sample_all_or_none.1 1 "x" (by decide),
   sample_all_or_none.2.2.2.2.1 0 "out" none (Or.inr (Or.inr rfl)),
   sample_all_or_none.2.2.1 0 "a|||b" (by decide)⟩

/-- C9: the Windows getPosition coerces the extracted position through the
falsy `|| null` fallback, so a track whose position is exactly 0 —
including one whose "00:00" time string parsed successfully to 0 — yields
`none` rather than 0. -/
theorem winGetPosition_zero_conflated :
    (∀ t : TrackInfo, t.position = some 0 → winGetPosition true (some t) = none) ∧
    parseTimeToSeconds "00:00" = 0 ∧
    (∀ d : WinData, d.currentTime = some "00:00" →
      winGetPosition true (some (winTrackOf d)) = none) := by
  have hmain : ∀ t : TrackInfo, t.position = some 0 → winGetPosition true (some t) = none := by
    intro t hp
    unfold winGetPosition
    rw [if_neg (by decide : ¬((!true) = true))]
    show (match t.position with
      | none => none
      | some p => if p = 0 then none else some p) = none
    rw [hp]
    rfl
  refine ⟨hmain, by decide, ?_⟩
  intro d hd
  apply hmain
  show some (parseTimeToSeconds (jsOrOpt d.currentTime "00:00")) = some 0
  rw [hd]
  rfl

/-- C9 witness: getPosition on a concrete track at position 0. -/
theorem winGetPosition_zero_conflated_witness :
    winGetPosition true
      (some { title := "T", artUrl := "", artist := "A", album := "B",
              position := some 0, duration := some 10, status := "playing",
              player := "P" }) = none :=
  winGetPosition_zero_conflated.1 _ rfl

/-- Only the first 8 delimited fields enter the track record. -/
theorem linuxTrackOf_first8 (p0 p1 p2 p3 p4 p5 p6 p7 : String) (rest : List String) :
    linuxTrackOf (p0 :: p1 :: p2 :: p3 :: p4 :: p5 :: p6 :: p7 :: rest) =
      linuxTrackOf [p0, p1, p2, p3, p4, p5, p6, p7] := rfl

/-- C10: the Linux delimited parser accepts any line splitting into more
than 8 fields: with exit code 0 it succeeds, builds the record from the
first 8 fields in order, and silently ignores the extra fields instead of
failing on a count other than exactly 8. -/
theorem linux_extra_fields_accepted :
    ∀ (out p0 p1 p2 p3 p4 p5 p6 p7 r : String) (rs : List String),
      jsSplit (jsTrim out) "|||" = p0 :: p1 :: p2 :: p3 :: p4 :: p5 :: p6 :: p7 :: r :: rs →
      linuxParseOutput 0 out = some (linuxTrackOf [p0, p1, p2, p3, p4, p5, p6, p7]) := by
  intro out p0 p1 p2 p3 p4 p5 p6 p7 r rs hsp
  have htrim : jsTrim out ≠ "" := by
    intro h0
    rw [h0] at hsp
    have h1 : (jsSplit "" "|||").length = (p0 :: p1 :: p2 :: p3 :: p4 :: p5 :: p6 :: p7 :: r :: rs).length := by
      rw [hsp]
    have h2 : jsSplit "" "|||" = [""] := by decide
    rw [h2] at h1
    simp only [List.length_cons, List.length_nil] at h1
    omega
  unfold linuxParseOutput
  rw [if_pos ⟨rfl, htrim⟩, hsp,
    if_pos (by simp only [List.length_cons]; omega :
      8 ≤ (p0 :: p1 :: p2 :: p3 :: p4 :: p5 :: p6 :: p7 :: r :: rs).length),
    linuxTrackOf_first8]

/-- C10 witness: a concrete 9-field line parses to the record of its first
8 fields. -/
theorem linux_extra_fields_accepted_witness :
    linuxParseOutput 0
      "T|||file://a.png|||Artist|||Album|||00:10|||03:00|||Playing|||mpv|||EXTRA" =
      some (linuxTrackOf ["T", "file://a.png", "Artist", "Album", "00:10", "03:00",
        "Playing", "mpv"]) :=
  linux_extra_fields_accepted _ "T" "file://a.png" "Artist" "Album" "00:10" "03:00"
    "Playing" "mpv" "EXTRA" [] (by decide)

/-- C4 (bug exhibited): a transport failure after the write stream is
created leaves an incomplete file at the deterministic path; the failing
call correctly returns `none` and leaves the cache empty, but a later
resolve of the same locator accepts that file through the `fs.existsSync`
check and returns it as a valid cached result without performing the
transfer again (the transfer counter stays at 1).  A non-success status,
by contrast, leaves no file and a retry does transfer again (counter
reaches 2). -/
theorem artwork_torn_write_bug :
    (winDownloadArtwork ArtSt.empty (fun _ => false) "http://x/a.jpg" .failMid).1 = none ∧
    (winDownloadArtwork ArtSt.empty (fun _ => false) "http://x/a.jpg" .failMid).2.cache = [] ∧
    (winDownloadArtwork ArtSt.empty (fun _ => false) "http://x/a.jpg" .failMid).2.disk.lookup
      (winLocalPathHttp "http://x/a.jpg") = some false ∧
    (winDownloadArtwork
      (winDownloadArtwork ArtSt.empty (fun _ => false) "http://x/a.jpg" .failMid).2
      (fun _ => false) "http://x/a.jpg" .ok).1 =
      some (fileUri (winLocalPathHttp "http://x/a.jpg")) ∧
    (winDownloadArtwork
      (winDownloadArtwork ArtSt.empty (fun _ => false) "http://x/a.jpg" .failMid).2
      (fun _ => false) "http://x/a.jpg" .ok).2.transfers = 1 ∧
    (winDownloadArtwork ArtSt.empty (fun _ => false) "http://x/a.jpg" .failNoFile).1 = none ∧
    (winDownloadArtwork ArtSt.empty (fun _ => false) "http://x/a.jpg" .failNoFile).2.cache = [] ∧
    (winDownloadArtwork
      (winDownloadArtwork ArtSt.empty (fun _ => false) "http://x/a.jpg" .failNoFile).2
      (fun _ => false) "http://x/a.jpg" .ok).2.transfers = 2 := by decide

/-- C6 counterexample: the claim covers every control operation, but the
Windows play-pause handler never captures or inspects standard error — an
exit code 1 with stderr containing "not available" is rejected as an
error, where the claim requires a successful resolution with an
informational notice. -/
theorem control_marker_counterexample :
    (winPlayPause true 1 "not available").1 =
      CtrlOutcome.rejected "WinKlang play-pause failed with code 1" ∧
    CtrlOutcome.isSuccess (winPlayPause true 1 "not available").1 = false ∧
    strIncludes "not available" "not available" = true := by decide

/-- C6 (amended): only the Windows next and previous operations inspect
the captured standard error; on a non-zero exit they resolve with an
informational notice when it contains the "not available" marker and
otherwise reject with an error carrying the exit code and the captured
stderr.  The Windows play-pause operation and all three Linux operations
reject on every non-zero exit, the Linux errors carrying only the exit
code (stderr is not captured). -/
theorem control_stderr_amended :
    (∀ (code : Int) (err : String), code ≠ 0 → strIncludes err "not available" = true →
      (winNext true code err).1 = CtrlOutcome.resolvedInfo
        "Next track control is not available for the current media player." ∧
      (winPrevious true code err).1 = CtrlOutcome.resolvedInfo
        "Previous track control is not available for the current media player.") ∧
    (∀ (code : Int) (err : String), code ≠ 0 → strIncludes err "not available" = false →
      (winNext true code err).1 = CtrlOutcome.rejected
        ("WinKlang next failed with code " ++ toString code ++ ": " ++ err) ∧
      (winPrevious true code err).1 = CtrlOutcome.rejected
        ("WinKlang previous failed with code " ++ toString code ++ ": " ++ err)) ∧
    (∀ (code : Int) (err : String), code ≠ 0 →
      (winPlayPause true code err).1 = CtrlOutcome.rejected
        ("WinKlang play-pause failed with code " ++ toString code) ∧
      (linuxPlayPause true code err).1 = CtrlOutcome.rejected
        ("playerctl play-pause failed with code " ++ toString code) ∧
      (linuxNext true code err).1 = CtrlOutcome.rejected
        ("playerctl next failed with code " ++ toString code) ∧
      (linuxPrevious true code err).1 = CtrlOutcome.rejected
        ("playerctl previous failed with code " ++ toString code)) := by
  refine ⟨?_, ?_, ?_⟩
  · intro code err hcode hmark
    constructor
    · unfold winNext
      rw [if_neg (by decide : ¬((!true) = true)), if_neg hcode, if_pos hmark]
    · unfold winPrevious
      rw [if_neg (by decide : ¬((!true) = true)), if_neg hcode, if_pos hmark]
  · intro code err hcode hmark
    constructor
    · unfold winNext
      rw [if_neg (by decide : ¬((!true) = true)), if_neg hcode,
        if_neg (by simp [hmark])]
    · unfold winPrevious
      rw [if_neg (by decide : ¬((!true) = true)), if_neg hcode,
        if_neg (by simp [hmark])]
  · intro code err hcode
    refine ⟨?_, ?_, ?_, ?_⟩
    · unfold winPlayPause
      rw [if_neg (by decide : ¬((!true) = true)), if_neg hcode]
    · unfold linuxPlayPause
      rw [if_neg (by decide : ¬((!true) = true)), if_neg hcode]
    · unfold linuxNext
      rw [if_neg (by decide : ¬((!true) = true)), if_neg hcode]
    · unfold linuxPrevious
      rw [if_neg (by decide : ¬((!true) = true)), if_neg hcode]

/-- C6 witness: the amended dispatch behavior at concrete exits. -/
theorem control_stderr_amended_witness :
    (winNext true 1 "skip control not available here").1 = CtrlOutcome.resolvedInfo
      "Next track control is not available for the current media player." ∧
    (winPrevious true 2 "boom").1 = CtrlOutcome.rejected
      ("WinKlang previous failed with code " ++ toString (2 : Int) ++ ": " ++ "boom") ∧
    (linuxNext true 2 "boom").1 = CtrlOutcome.rejected
      ("playerctl next failed with code " ++ toString (2 : Int)) :=
  ⟨(control_stderr_amended.1 1 "skip control not available here" (by decide) (by decide)).1,
   (control_stderr_amended.2.1 2 "boom" (by decide) (by decide)).2,
   (control_stderr_amended.2.2 2 "boom" (by decide)).2.2.1⟩

/-- C7: when the availability flag is false the controller is an inert
no-op — both getCurrentTrack variants return `none` without spawning, and
every control operation shows a warning and resolves successfully (not an
error) without spawning. -/
theorem unavailable_noop :
    (∀ (code : Int) (out : String), linuxGetCurrentTrack false code out = (none, false)) ∧
    (∀ (code : Int) (out : String) (parsed : Option WinData),
      winGetCurrentTrack false code out parsed = (none, false)) ∧
    (∀ (code : Int) (err : String),
      linuxPlayPause false code err = (CtrlOutcome.resolvedWarn playerctlWarn, false) ∧
      linuxNext false code err = (CtrlOutcome.resolvedWarn playerctlWarn, false) ∧
      linuxPrevious false code err = (CtrlOutcome.resolvedWarn playerctlWarn, false) ∧
      winPlayPause false code err = (CtrlOutcome.resolvedWarn winKlangWarn, false) ∧
      winNext false code err = (CtrlOutcome.resolvedWarn winKlangWarn, false) ∧
      winPrevious false code err = (CtrlOutcome.resolvedWarn winKlangWarn, false) ∧
      CtrlOutcome.isSuccess (linuxPlayPause false code err).1 = true ∧
      CtrlOutcome.isSuccess (winPlayPause false code err).1 = true) ∧
    (∀ track : Option TrackInfo, winGetPosition false track = none) :=
  ⟨fun _ _ => rfl, fun _ _ _ => rfl,
   fun _ _ => ⟨rfl, rfl, rfl, rfl, rfl, rfl, rfl, rfl⟩, fun _ => rfl⟩
